import Mathlib

/-!
Verification of the water-gallon prediction server (`src/server/app.py`).

The prediction engine (`compute_prediction`) and the forecast-store upsert
(`update_prediction`) are embedded shallowly:

* timestamps are rationals counting seconds (a `datetime` instant); a
  `timedelta(hours = h)` is `h * 3600` seconds;
* float arithmetic is modelled over `ℚ` (the computations are sums, maxima
  and divisions, so the idealised real-number behaviour is exact here);
* the two `return None` sites of `compute_prediction` (empty history at
  line 84, no positive readings at line 89) are modelled as the distinct
  sentinel constructors `PredResult.noData` and `PredResult.noPositiveData`
  so that the control flow is preserved; in Python both are the bare `None`
  and carry no field values;
* the MySQL `galon_prediction` table is a list of rows, the `UNIQUE KEY`
  on `galon` an explicit hypothesis where needed; `UPDATE ... WHERE galon`
  rewrites every matching row, `INSERT` appends.
-/

namespace WaterPrediction

/-- `CAPACITY = 19.0`, app.py line 21. -/
def CAPACITY : ℚ := 19

/-- The recent-data window, 48 hours (app.py line 95), in seconds. -/
def RECENT_WINDOW_SECONDS : ℚ := 48 * 3600

/-- The elapsed-time floor, `0.1` hours (app.py lines 111-112). -/
def MIN_ELAPSED_HOURS : ℚ := 1/10

/-- The consumption-rate floor, `0.001` per hour (app.py lines 124-126). -/
def MIN_RATE : ℚ := 1/1000

/-- One row of the `galon_data` table: a usage reading. -/
structure Reading where
  galon : String
  value : ℚ
  timestamp : ℚ
deriving DecidableEq

/-- The dictionary built at app.py lines 138-148 (all-number form; the
Python code formats the three instants as strings at the very end, which
is lossless for distinct instants). -/
structure Prediction where
  galon : String
  capacity : ℚ
  cumulative_consumption : ℚ
  consumption_rate_per_hour : ℚ
  remaining_volume : ℚ
  hours_to_empty : ℚ
  predicted_empty_time : ℚ
  last_time : ℚ
  current_time : ℚ
deriving DecidableEq

/-- Result of `compute_prediction`: the two `return None` sites
(app.py lines 84 and 89) kept distinct, or a success dictionary. -/
inductive PredResult where
  | noData : PredResult
  | noPositiveData : PredResult
  | success : Prediction → PredResult
deriving DecidableEq

/-- Whether a `compute_prediction` result is a success dictionary
(in Python: `prediction is not None`). -/
def PredResult.isSuccess : PredResult → Bool
  | .success _ => true
  | _ => false

/-- The `remaining_volume` entry of the result, when one exists. -/
def PredResult.remainingVolume? : PredResult → Option ℚ
  | .success p => some p.remaining_volume
  | _ => none

/-- Insertion of a reading into a timestamp-sorted list: placed before
the first strictly later reading, after equal timestamps. -/
def insertByTime (r : Reading) : List Reading → List Reading
  | [] => [r]
  | x :: xs =>
      if r.timestamp < x.timestamp then r :: x :: xs
      else x :: insertByTime r xs

/-- Sort by timestamp, modelling
`recent_records.sort(key=lambda x: x['timestamp'])` (app.py line 103).
Python's sort is stable while this insertion sort may reorder readings
sharing a timestamp, but every quantity the engine reads off the sorted
list — the endpoint timestamps and the value sum — is invariant under
permuting equal-timestamp readings. -/
def sortByTime : List Reading → List Reading
  | [] => []
  | x :: xs => insertByTime x (sortByTime xs)

/-- `recent_records[0]['timestamp']` (app.py line 106); only used on
non-empty lists, where the default is never reached. -/
def headTimestamp (l : List Reading) : ℚ :=
  (l.head?.map Reading.timestamp).getD 0

/-- `recent_records[-1]['timestamp']` (app.py line 107); only used on
non-empty lists, where the default is never reached. -/
def lastTimestamp (l : List Reading) : ℚ :=
  (l.getLast?.map Reading.timestamp).getD 0

/-- app.py lines 124-148: the three-way branch on the raw recent rate and
the remaining volume, then the result dictionary. Note the branch order of
the source: the rate floor of line 124 is tested FIRST, so when the raw
rate is at or below `MIN_RATE` the `remaining_volume <= 0` case of
line 129 is never reached. -/
def finishPrediction (galon : String) (total_consumption consumption_rate
    remaining_volume last_time current_time : ℚ) : Prediction :=
  if consumption_rate ≤ MIN_RATE then
    let hours_to_empty := remaining_volume / MIN_RATE
    { galon := galon, capacity := CAPACITY
      cumulative_consumption := total_consumption
      consumption_rate_per_hour := MIN_RATE
      remaining_volume := remaining_volume
      hours_to_empty := hours_to_empty
      predicted_empty_time := current_time + hours_to_empty * 3600
      last_time := last_time, current_time := current_time }
  else if remaining_volume ≤ 0 then
    { galon := galon, capacity := CAPACITY
      cumulative_consumption := total_consumption
      consumption_rate_per_hour := consumption_rate
      remaining_volume := remaining_volume
      hours_to_empty := 0
      predicted_empty_time := last_time
      last_time := last_time, current_time := current_time }
  else
    let hours_to_empty := remaining_volume / consumption_rate
    { galon := galon, capacity := CAPACITY
      cumulative_consumption := total_consumption
      consumption_rate_per_hour := consumption_rate
      remaining_volume := remaining_volume
      hours_to_empty := hours_to_empty
      predicted_empty_time := current_time + hours_to_empty * 3600
      last_time := last_time, current_time := current_time }

/-- app.py lines 91-148: the successful branch of `compute_prediction`,
applied to the positive readings `records_positive` and the current
instant. Mirrors the source line by line: the 48-hour recency filter and
its fewer-than-two fallback, the sort, the 0.1-hour elapsed floor, the
recent rate, the all-history total, `remaining_volume`, and the
three-way branch of `finishPrediction`. -/
def computeSuccess (galon : String) (records_positive : List Reading)
    (current_time : ℚ) : Prediction :=
  let recent_cutoff := current_time - RECENT_WINDOW_SECONDS
  let recent_filtered := records_positive.filter
    fun r => recent_cutoff ≤ r.timestamp
  let recent_chosen :=
    if recent_filtered.length < 2 then records_positive else recent_filtered
  let recent_records := sortByTime recent_chosen
  let first_time := headTimestamp recent_records
  let last_time := lastTimestamp recent_records
  let diff_hours := (last_time - first_time) / 3600
  let time_diff_hours :=
    if diff_hours ≤ MIN_ELAPSED_HOURS then MIN_ELAPSED_HOURS else diff_hours
  let recent_consumption := (recent_records.map Reading.value).sum
  let consumption_rate := recent_consumption / time_diff_hours
  let total_consumption := (records_positive.map Reading.value).sum
  let remaining_volume := max 0 (CAPACITY - total_consumption)
  finishPrediction galon total_consumption consumption_rate remaining_volume
    last_time current_time

/-- `compute_prediction` (app.py lines 59-149) on the container's reading
history (the rows `SELECT ... WHERE galon = %s ORDER BY timestamp ASC`
returns) and the current instant. Empty history and no-positive-reading
history give the two sentinel results of lines 84 and 89. -/
def computePrediction (galon : String) (records : List Reading)
    (current_time : ℚ) : PredResult :=
  if records.isEmpty then .noData
  else
    let records_positive := records.filter fun r => 0 < r.value
    if records_positive.isEmpty then .noPositiveData
    else .success (computeSuccess galon records_positive current_time)

/-- One row of the `galon_prediction` table (schema comment,
app.py lines 28-38; the auto-increment `id` is omitted). -/
structure ForecastRow where
  galon : String
  predicted_empty_time : ℚ
  consumption_rate : ℚ
  cumulative_consumption : ℚ
  remaining_volume : ℚ
  hours_to_empty : ℚ
  updated_at : ℚ
deriving DecidableEq

/-- The row written by `update_prediction` for a success dictionary
(app.py lines 182-190 and 197-205). Note that the `updated_at` column
receives `prediction['last_time']`, the last recent reading's timestamp,
in both the UPDATE and the INSERT. -/
def rowFromPrediction (galon : String) (p : Prediction) : ForecastRow :=
  { galon := galon
    predicted_empty_time := p.predicted_empty_time
    consumption_rate := p.consumption_rate_per_hour
    cumulative_consumption := p.cumulative_consumption
    remaining_volume := p.remaining_volume
    hours_to_empty := p.hours_to_empty
    updated_at := p.last_time }

/-- Number of `galon_prediction` rows for one container:
`SELECT COUNT(*) FROM galon_prediction WHERE galon = %s`
(app.py line 166). -/
def countGalon (store : List ForecastRow) (galon : String) : Nat :=
  (store.filter fun row => row.galon = galon).length

/-- app.py lines 161-207: check-then-act upsert of a success prediction.
`record_exists` from the COUNT query; if present, `UPDATE ... WHERE galon`
rewrites every matching row; otherwise `INSERT` appends a row. -/
def upsertForecast (store : List ForecastRow) (galon : String)
    (p : Prediction) : List ForecastRow :=
  if 0 < countGalon store galon then
    store.map fun row =>
      if row.galon = galon then rowFromPrediction galon p else row
  else
    store ++ [rowFromPrediction galon p]

/-- `update_prediction` (app.py lines 151-212): recompute, and if the
result is the `None` sentinel return with the store untouched
(lines 157-159), else upsert. -/
def update_prediction (galon : String) (records : List Reading)
    (current_time : ℚ) (store : List ForecastRow) : List ForecastRow :=
  match computePrediction galon records current_time with
  | .success p => upsertForecast store galon p
  | _ => store

/-! ### Structural lemmas about the prediction engine -/

/-- Inversion: a success result arises exactly from `computeSuccess` on the
non-empty list of positive readings. -/
theorem computePrediction_success_inv {galon : String} {records : List Reading}
    {t : ℚ} {p : Prediction} (h : computePrediction galon records t = .success p) :
    (records.filter fun r => 0 < r.value) ≠ [] ∧
      p = computeSuccess galon (records.filter fun r => 0 < r.value) t := by
  simp only [computePrediction] at h
  split_ifs at h with h1 h2
  · refine ⟨by simpa using h2, ?_⟩
    cases h
    rfl

/-- The reported rate of the final branch never drops below the floor. -/
theorem finishPrediction_rate (galon : String) (tc cr rv lt ct : ℚ) :
    MIN_RATE ≤ (finishPrediction galon tc cr rv lt ct).consumption_rate_per_hour := by
  simp only [finishPrediction]
  split_ifs with h1 h2
  · exact le_refl _
  · exact (not_le.mp h1).le
  · exact (not_le.mp h1).le

/-- The fields the final branch copies through unchanged. -/
theorem finishPrediction_fields (galon : String) (tc cr rv lt ct : ℚ) :
    (finishPrediction galon tc cr rv lt ct).cumulative_consumption = tc ∧
      (finishPrediction galon tc cr rv lt ct).remaining_volume = rv ∧
      (finishPrediction galon tc cr rv lt ct).last_time = lt ∧
      (finishPrediction galon tc cr rv lt ct).current_time = ct ∧
      (finishPrediction galon tc cr rv lt ct).capacity = CAPACITY := by
  simp only [finishPrediction]
  split_ifs <;> exact ⟨rfl, rfl, rfl, rfl, rfl⟩

/-- The predicted hours-to-empty is never negative when the remaining
volume is not. -/
theorem finishPrediction_hours_nonneg (galon : String) (tc cr rv lt ct : ℚ)
    (h : 0 ≤ rv) :
    0 ≤ (finishPrediction galon tc cr rv lt ct).hours_to_empty := by
  simp only [finishPrediction]
  split_ifs with h1 h2
  · exact div_nonneg h (by norm_num [MIN_RATE])
  · exact le_refl _
  · exact div_nonneg h (lt_trans (by norm_num [MIN_RATE]) (not_le.mp h1)).le

/-- Behaviour of the final branch at zero remaining volume: the
hours-to-empty is 0, and the predicted empty instant is the last reading
time when the raw rate beat the floor (line 129 branch), but the current
time when the rate was floored (line 124 branch took precedence). -/
theorem finishPrediction_empty (galon : String) (tc cr rv lt ct : ℚ)
    (h : (finishPrediction galon tc cr rv lt ct).remaining_volume = 0) :
    (finishPrediction galon tc cr rv lt ct).hours_to_empty = 0 ∧
      (MIN_RATE < (finishPrediction galon tc cr rv lt ct).consumption_rate_per_hour →
        (finishPrediction galon tc cr rv lt ct).predicted_empty_time =
          (finishPrediction galon tc cr rv lt ct).last_time) ∧
      ((finishPrediction galon tc cr rv lt ct).consumption_rate_per_hour = MIN_RATE →
        (finishPrediction galon tc cr rv lt ct).predicted_empty_time =
          (finishPrediction galon tc cr rv lt ct).current_time) := by
  simp only [finishPrediction] at h ⊢
  split_ifs at h ⊢ with h1 h2
  · have hrv : rv = 0 := h
    exact ⟨by simp [hrv], fun hc => absurd hc (lt_irrefl MIN_RATE), by simp [hrv]⟩
  · exact ⟨rfl, fun _ => rfl, fun hc => absurd hc (ne_of_gt (not_le.mp h1))⟩
  · exact absurd (le_of_eq h) h2

/-- The cumulative consumption of a success is the sum over ALL positive
readings, and the remaining volume its capped complement. -/
theorem computeSuccess_volume (galon : String) (rp : List Reading) (t : ℚ) :
    (computeSuccess galon rp t).cumulative_consumption = (rp.map Reading.value).sum ∧
      (computeSuccess galon rp t).remaining_volume =
        max 0 (CAPACITY - (rp.map Reading.value).sum) := by
  simp only [computeSuccess]
  exact ⟨(finishPrediction_fields _ _ _ _ _ _).1,
    (finishPrediction_fields _ _ _ _ _ _).2.1⟩

/-- The rate floor, lifted to `computeSuccess`. -/
theorem computeSuccess_rate_ge (galon : String) (rp : List Reading) (t : ℚ) :
    MIN_RATE ≤ (computeSuccess galon rp t).consumption_rate_per_hour := by
  simp only [computeSuccess]
  exact finishPrediction_rate _ _ _ _ _ _

/-- The zero-remaining-volume behaviour, lifted to `computeSuccess`. -/
theorem computeSuccess_empty (galon : String) (rp : List Reading) (t : ℚ)
    (h : (computeSuccess galon rp t).remaining_volume = 0) :
    (computeSuccess galon rp t).hours_to_empty = 0 ∧
      (MIN_RATE < (computeSuccess galon rp t).consumption_rate_per_hour →
        (computeSuccess galon rp t).predicted_empty_time =
          (computeSuccess galon rp t).last_time) ∧
      ((computeSuccess galon rp t).consumption_rate_per_hour = MIN_RATE →
        (computeSuccess galon rp t).predicted_empty_time =
          (computeSuccess galon rp t).current_time) := by
  simp only [computeSuccess] at h ⊢
  exact finishPrediction_empty _ _ _ _ _ _ h

/-- The hours-to-empty of a success is never negative. -/
theorem computeSuccess_hours_nonneg (galon : String) (rp : List Reading) (t : ℚ) :
    0 ≤ (computeSuccess galon rp t).hours_to_empty := by
  simp only [computeSuccess]
  exact finishPrediction_hours_nonneg _ _ _ _ _ _ (le_max_left _ _)

/-- A non-empty list of positive readings has positive value sum. -/
theorem sum_values_pos {rp : List Reading} (hne : rp ≠ [])
    (hpos : ∀ r ∈ rp, 0 < r.value) : 0 < (rp.map Reading.value).sum := by
  refine List.sum_pos _ ?_ (by simpa using hne)
  intro x hx
  obtain ⟨r, hr, hrx⟩ := List.mem_map.mp hx
  exact hrx ▸ hpos r hr

/-! ### Structural lemmas about the forecast store -/

/-- Mapping a function that fixes every element of a list is the
identity. -/
theorem map_eq_self_of {α : Type} {l : List α} {f : α → α}
    (h : ∀ x ∈ l, f x = x) : l.map f = l := by
  induction l with
  | nil => rfl
  | cons a s ih =>
      simp only [List.map_cons, h a (by simp)]
      rw [ih fun x hx => h x (by simp [hx])]

/-- The in-place UPDATE rewrites matching rows with a row that still
matches, so the per-container row count is unchanged. -/
theorem countGalon_map_replace (store : List ForecastRow) (g : String)
    (x : ForecastRow) (hx : x.galon = g) :
    countGalon (store.map fun row => if row.galon = g then x else row) g =
      countGalon store g := by
  induction store with
  | nil => rfl
  | cons a s ih =>
      by_cases ha : a.galon = g
      · simp [countGalon, List.filter_cons, ha, hx] at ih ⊢
        exact ih
      · simp [countGalon, List.filter_cons, ha] at ih ⊢
        exact ih

/-- Appending one matching row raises the per-container count by one. -/
theorem countGalon_append_row (s : List ForecastRow) (g : String)
    (x : ForecastRow) (hx : x.galon = g) :
    countGalon (s ++ [x]) g = countGalon s g + 1 := by
  simp [countGalon, List.filter_append, hx]

/-- After an upsert the container has at least one forecast row. -/
theorem countGalon_upsert_pos (store : List ForecastRow) (g : String)
    (p : Prediction) : 0 < countGalon (upsertForecast store g p) g := by
  unfold upsertForecast
  split_ifs with hex
  · rwa [countGalon_map_replace store g (rowFromPrediction g p) rfl]
  · rw [countGalon_append_row store g (rowFromPrediction g p) rfl]
    omega

/-- Under the `UNIQUE KEY` invariant (at most one row per container), an
upsert leaves exactly one row for the container. -/
theorem countGalon_upsert_eq_one (store : List ForecastRow) (g : String)
    (p : Prediction) (h : countGalon store g ≤ 1) :
    countGalon (upsertForecast store g p) g = 1 := by
  unfold upsertForecast
  split_ifs with hex
  · rw [countGalon_map_replace store g (rowFromPrediction g p) rfl]
    omega
  · rw [countGalon_append_row store g (rowFromPrediction g p) rfl]
    omega

/-- Every row of the upserted store that matches the container carries
exactly the prediction's field values. -/
theorem upsert_row_eq {store : List ForecastRow} {g : String} {p : Prediction}
    {row : ForecastRow} (hmem : row ∈ upsertForecast store g p)
    (hg : row.galon = g) : row = rowFromPrediction g p := by
  unfold upsertForecast at hmem
  split_ifs at hmem with hex
  · obtain ⟨r, hr, hrow⟩ := List.mem_map.mp hmem
    subst hrow
    by_cases hrg : r.galon = g
    · rw [if_pos hrg]
    · rw [if_neg hrg] at hg
      exact absurd hg hrg
  · rcases List.mem_append.mp hmem with hin | hin
    · exfalso
      have hz : countGalon store g = 0 := by omega
      have hfil := List.filter_eq_nil_iff.mp (List.length_eq_zero.mp hz)
      exact hfil row hin (by simpa using hg)
    · simpa using hin

/-! ### The claims -/

/-- Claim C1: for every reading history containing at least one positive
reading, the engine returns a success prediction whose `remaining_volume`
is `max 0 (CAPACITY − S)` where `S` sums the values of ALL positive
readings of the full history, not only the 48-hour recent window
(app.py lines 119 and 122). -/
theorem remaining_volume_from_full_history (galon : String)
    (records : List Reading) (t : ℚ)
    (h : ∃ r ∈ records, 0 < r.value) :
    ∃ p, computePrediction galon records t = .success p ∧
      p.remaining_volume =
        max 0 (CAPACITY -
          ((records.filter fun r => 0 < r.value).map Reading.value).sum) := by
  obtain ⟨r, hr, hrpos⟩ := h
  have hne1 : records ≠ [] := List.ne_nil_of_mem hr
  have hfil : (records.filter fun r => 0 < r.value) ≠ [] := by
    have hmem : r ∈ records.filter fun r => 0 < r.value :=
      List.mem_filter.mpr ⟨hr, by simpa using hrpos⟩
    exact List.ne_nil_of_mem hmem
  refine ⟨_, ?_, (computeSuccess_volume galon _ t).2⟩
  simp [computePrediction, hne1, hfil]

/-- Witness for C1 at the single reading (value 5 at instant 100). -/
theorem remaining_volume_from_full_history_witness :
    ∃ p, computePrediction "A" [⟨"A", 5, 100⟩] 0 = .success p ∧
      p.remaining_volume =
        max 0 (CAPACITY -
          ((([⟨"A", 5, 100⟩] : List Reading).filter
            fun r => 0 < r.value).map Reading.value).sum) :=
  remaining_volume_from_full_history "A" [⟨"A", 5, 100⟩] 0
    ⟨⟨"A", 5, 100⟩, by simp, by norm_num⟩

/-- Claim C2: whenever the engine returns a success prediction, its
`consumption_rate_per_hour` is at least the floor `MIN_RATE = 0.001`, so
in particular strictly positive (app.py lines 124-126). -/
theorem success_rate_floor {galon : String} {records : List Reading}
    {t : ℚ} {p : Prediction}
    (h : computePrediction galon records t = .success p) :
    MIN_RATE ≤ p.consumption_rate_per_hour ∧
      0 < p.consumption_rate_per_hour := by
  obtain ⟨-, hp⟩ := computePrediction_success_inv h
  subst hp
  exact ⟨computeSuccess_rate_ge _ _ _,
    lt_of_lt_of_le (by norm_num [MIN_RATE]) (computeSuccess_rate_ge _ _ _)⟩

/-- Witness for C2 at two unit readings 180 seconds apart. -/
theorem success_rate_floor_witness :
    MIN_RATE ≤ (Prediction.mk "A" 19 2 20 17 (17/20) 203060 196580
        200000).consumption_rate_per_hour ∧
      0 < (Prediction.mk "A" 19 2 20 17 (17/20) 203060 196580
        200000).consumption_rate_per_hour := by
  have h : computePrediction "A" [⟨"A", 1, 196400⟩, ⟨"A", 1, 196580⟩] 200000 =
      .success (Prediction.mk "A" 19 2 20 17 (17/20) 203060 196580 200000) := by
    norm_num [computePrediction, computeSuccess, finishPrediction, sortByTime,
      insertByTime, headTimestamp, lastTimestamp, RECENT_WINDOW_SECONDS,
      MIN_ELAPSED_HOURS, MIN_RATE, CAPACITY, List.filter]
  exact success_rate_floor h

/-- Claim C3 (counterexample): the claim that `remaining_volume = 0`
forces `predicted_empty_instant` to equal the last reading's timestamp is
FALSE: with an old reading of 19 emptying the container and two tiny
recent readings, the raw recent rate 0.0002 falls under the floor, the
line-124 branch of app.py wins over the line-129 branch, and the
predicted empty time is the current time 300000, not the last reading
time 200180, even though the remaining volume is 0. -/
theorem empty_container_pinned_to_last_refuted :
    computePrediction "A"
        [⟨"A", 19, 0⟩, ⟨"A", 1/100000, 200000⟩, ⟨"A", 1/100000, 200180⟩]
        300000 =
      .success (Prediction.mk "A" 19 (950001/50000) (1/1000) 0 0 300000
        200180 300000) ∧
      (Prediction.mk "A" 19 (950001/50000) (1/1000) 0 0 300000 200180
        300000).remaining_volume = 0 ∧
      (Prediction.mk "A" 19 (950001/50000) (1/1000) 0 0 300000 200180
          300000).predicted_empty_time ≠
        (Prediction.mk "A" 19 (950001/50000) (1/1000) 0 0 300000 200180
          300000).last_time := by
  refine ⟨?_, rfl, by norm_num⟩
  norm_num [computePrediction, computeSuccess, finishPrediction, sortByTime,
    insertByTime, headTimestamp, lastTimestamp, RECENT_WINDOW_SECONDS,
    MIN_ELAPSED_HOURS, MIN_RATE, CAPACITY, List.filter]

/-- Claim C3 (amended): when a success prediction has zero remaining
volume its `hours_to_empty` is 0, and its predicted empty instant is
pinned to the last reading time exactly when the rate was not floored
(rate above `MIN_RATE`); when the rate was floored to `MIN_RATE` the
predicted empty instant is the current time instead (app.py branch order,
lines 124-132). -/
theorem empty_container_behaviour {galon : String} {records : List Reading}
    {t : ℚ} {p : Prediction}
    (h : computePrediction galon records t = .success p)
    (hz : p.remaining_volume = 0) :
    p.hours_to_empty = 0 ∧
      (MIN_RATE < p.consumption_rate_per_hour →
        p.predicted_empty_time = p.last_time) ∧
      (p.consumption_rate_per_hour = MIN_RATE →
        p.predicted_empty_time = p.current_time) := by
  obtain ⟨-, hp⟩ := computePrediction_success_inv h
  subst hp
  exact computeSuccess_empty _ _ _ hz

/-- Witness for the amended C3 at a single reading of value 19. -/
theorem empty_container_behaviour_witness :
    (Prediction.mk "A" 19 19 190 0 0 1000 1000 500000).hours_to_empty = 0 ∧
      (MIN_RATE < (Prediction.mk "A" 19 19 190 0 0 1000 1000
          500000).consumption_rate_per_hour →
        (Prediction.mk "A" 19 19 190 0 0 1000 1000
            500000).predicted_empty_time =
          (Prediction.mk "A" 19 19 190 0 0 1000 1000 500000).last_time) ∧
      ((Prediction.mk "A" 19 19 190 0 0 1000 1000
          500000).consumption_rate_per_hour = MIN_RATE →
        (Prediction.mk "A" 19 19 190 0 0 1000 1000
            500000).predicted_empty_time =
          (Prediction.mk "A" 19 19 190 0 0 1000 1000 500000).current_time) := by
  have h : computePrediction "A" [⟨"A", 19, 1000⟩] 500000 =
      .success (Prediction.mk "A" 19 19 190 0 0 1000 1000 500000) := by
    norm_num [computePrediction, computeSuccess, finishPrediction, sortByTime,
      insertByTime, headTimestamp, lastTimestamp, RECENT_WINDOW_SECONDS,
      MIN_ELAPSED_HOURS, MIN_RATE, CAPACITY, List.filter]
  exact empty_container_behaviour h rfl

/-- Claim C4 (counterexample): on an empty history the engine returns the
bare `NoData` sentinel (`None` in app.py line 84), which carries NO
`remaining_volume` field at all — in particular no value equal to the
capacity, refuting the claimed `remaining_volume = capacity` of the
sentinel. -/
theorem sentinel_carries_no_volume_refuted :
    computePrediction "A" [] 0 = .noData ∧
      (computePrediction "A" [] 0).remainingVolume? ≠ some CAPACITY := by
  refine ⟨by simp [computePrediction], ?_⟩
  simp [computePrediction, PredResult.remainingVolume?]

/-- Claim C4 (amended): an empty history yields the `NoData` sentinel and
a non-empty all-non-positive history the `NoPositiveData` sentinel; both
are representable non-error outcomes (Python `None` at lines 84 and 89),
but they are bare sentinels carrying no field values. -/
theorem sentinel_statuses (galon : String) (records : List Reading)
    (t u : ℚ) (hne : records ≠ []) (hnp : ∀ r ∈ records, r.value ≤ 0) :
    computePrediction galon [] u = .noData ∧
      computePrediction galon records t = .noPositiveData := by
  constructor
  · simp [computePrediction]
  · have hfil : records.filter (fun r => 0 < r.value) = [] := by
      rw [List.filter_eq_nil_iff]
      intro r hr
      simpa using not_lt.mpr (hnp r hr)
    simp [computePrediction, hne, hfil]

/-- Witness for the amended C4 at the single non-positive reading −1. -/
theorem sentinel_statuses_witness :
    computePrediction "A" [] 7 = .noData ∧
      computePrediction "A" [⟨"A", -1, 5⟩] 7 = .noPositiveData :=
  sentinel_statuses "A" [⟨"A", -1, 5⟩] 7 7 (by simp)
    (by intro r hr; simp at hr; rw [hr]; norm_num)

/-- Claim C5: two positive readings of value 1 placed 180 seconds
(0.05 hours) apart, both inside the 48-hour recent window, give a
consumption rate of exactly 2 / 0.1 = 20 per hour: the elapsed time is
floored to 0.1 hours, so the near-zero true elapsed time does not amplify
the rate (app.py lines 109-116). -/
theorem two_close_readings_rate (galon : String) (t1 now : ℚ)
    (hwin : now - RECENT_WINDOW_SECONDS ≤ t1) :
    ∃ p, computePrediction galon
        [⟨galon, 1, t1⟩, ⟨galon, 1, t1 + 180⟩] now = .success p ∧
      p.consumption_rate_per_hour = 20 := by
  have hwin2 : now - RECENT_WINDOW_SECONDS ≤ t1 + 180 := by linarith
  have hlt : t1 < t1 + 180 := by linarith
  have hfil : ([⟨galon, 1, t1⟩, ⟨galon, 1, t1 + 180⟩] : List Reading).filter
      (fun r => 0 < r.value) = [⟨galon, 1, t1⟩, ⟨galon, 1, t1 + 180⟩] := by
    norm_num [List.filter]
  refine ⟨computeSuccess galon
    [⟨galon, 1, t1⟩, ⟨galon, 1, t1 + 180⟩] now, ?_, ?_⟩
  · simp [computePrediction, hfil]
  · simp only [computeSuccess]
    norm_num [List.filter, hwin, hwin2, sortByTime, insertByTime, hlt,
      headTimestamp, lastTimestamp, MIN_ELAPSED_HOURS, MIN_RATE, CAPACITY,
      finishPrediction]

/-- Witness for C5 at timestamps 196400 and 196580, now 200000. -/
theorem two_close_readings_rate_witness :
    ∃ p, computePrediction "A"
        [⟨"A", 1, 196400⟩, ⟨"A", 1, (196400 : ℚ) + 180⟩] 200000 = .success p ∧
      p.consumption_rate_per_hour = 20 :=
  two_close_readings_rate "A" 196400 200000
    (by norm_num [RECENT_WINDOW_SECONDS])

/-- Claim C6: a history of exactly one reading whose value reaches the
capacity yields a success prediction with zero remaining volume, zero
hours-to-empty, and a predicted empty instant equal to that reading's
own timestamp (app.py lines 98-136). -/
theorem single_full_reading (galon : String) (v t1 now : ℚ)
    (hv : CAPACITY ≤ v) :
    ∃ p, computePrediction galon [⟨galon, v, t1⟩] now = .success p ∧
      p.remaining_volume = 0 ∧ p.hours_to_empty = 0 ∧
      p.predicted_empty_time = t1 := by
  have hv19 : (19 : ℚ) ≤ v := hv
  have hvpos : 0 < v := by linarith
  have hfil : ([⟨galon, v, t1⟩] : List Reading).filter
      (fun r => 0 < r.value) = [⟨galon, v, t1⟩] := by
    simp [List.filter, hvpos]
  have h10 : v / (1/10 : ℚ) = 10 * v := by ring
  have hrate : ¬ v / (1/10 : ℚ) ≤ 1/1000 := by
    rw [not_le, h10]
    linarith
  refine ⟨computeSuccess galon [⟨galon, v, t1⟩] now, ?_, ?_⟩
  · simp [computePrediction, hfil]
  · have hrv : max 0 (CAPACITY - v) = 0 := max_eq_left (by rw [CAPACITY]; linarith)
    by_cases hc : now - RECENT_WINDOW_SECONDS ≤ t1
    · simp only [computeSuccess]
      norm_num [List.filter, hc, sortByTime, insertByTime, headTimestamp,
        lastTimestamp, MIN_ELAPSED_HOURS, MIN_RATE, finishPrediction, hrv,
        hrate]
    · simp only [computeSuccess]
      norm_num [List.filter, hc, sortByTime, insertByTime, headTimestamp,
        lastTimestamp, MIN_ELAPSED_HOURS, MIN_RATE, finishPrediction, hrv,
        hrate]

/-- Witness for C6 at value 19 (exactly the capacity). -/
theorem single_full_reading_witness :
    ∃ p, computePrediction "A" [⟨"A", 19, 1000⟩] 500000 = .success p ∧
      p.remaining_volume = 0 ∧ p.hours_to_empty = 0 ∧
      p.predicted_empty_time = 1000 :=
  single_full_reading "A" 19 1000 500000 (by norm_num [CAPACITY])

/-- Claim C7: the forecast-store upsert is idempotent. Under the
`UNIQUE KEY unique_galon` schema invariant (at most one existing row per
container), upserting the same success prediction twice equals upserting
it once, and afterwards exactly one row exists for the container
(app.py lines 161-207). -/
theorem upsert_idempotent (store : List ForecastRow) (g : String)
    (p : Prediction) (h : countGalon store g ≤ 1) :
    upsertForecast (upsertForecast store g p) g p =
        upsertForecast store g p ∧
      countGalon (upsertForecast store g p) g = 1 := by
  refine ⟨?_, countGalon_upsert_eq_one store g p h⟩
  conv_lhs => rw [upsertForecast]
  rw [if_pos (countGalon_upsert_pos store g p)]
  apply map_eq_self_of
  intro row hrow
  by_cases hg : row.galon = g
  · rw [if_pos hg, ← upsert_row_eq hrow hg]
  · rw [if_neg hg]

/-- Witness for C7 starting from the empty store. -/
theorem upsert_idempotent_witness :
    upsertForecast (upsertForecast [] "A"
        (Prediction.mk "A" 19 2 20 17 (17/20) 203060 196580 200000)) "A"
        (Prediction.mk "A" 19 2 20 17 (17/20) 203060 196580 200000) =
      upsertForecast [] "A"
        (Prediction.mk "A" 19 2 20 17 (17/20) 203060 196580 200000) ∧
      countGalon (upsertForecast [] "A"
        (Prediction.mk "A" 19 2 20 17 (17/20) 203060 196580 200000)) "A" = 1 :=
  upsert_idempotent [] "A"
    (Prediction.mk "A" 19 2 20 17 (17/20) 203060 196580 200000)
    (by simp [countGalon])

/-- Claim C8: when the freshly computed prediction is not a success
(the `None` sentinel for no data or no positive data), the upsert leaves
the forecast store completely unchanged (app.py lines 156-159). -/
theorem non_success_leaves_store_unchanged (galon : String)
    (records : List Reading) (t : ℚ) (store : List ForecastRow)
    (h : (computePrediction galon records t).isSuccess = false) :
    update_prediction galon records t store = store := by
  unfold update_prediction
  cases hres : computePrediction galon records t with
  | noData => rfl
  | noPositiveData => rfl
  | success p =>
      rw [hres] at h
      simp [PredResult.isSuccess] at h

/-- Witness for C8: an empty history leaves a one-row store unchanged. -/
theorem non_success_leaves_store_unchanged_witness :
    update_prediction "A" [] 0 [ForecastRow.mk "A" 1 2 3 4 5 6] =
      [ForecastRow.mk "A" 1 2 3 4 5 6] :=
  non_success_leaves_store_unchanged "A" [] 0 [ForecastRow.mk "A" 1 2 3 4 5 6]
    (by simp [computePrediction, PredResult.isSuccess])

/-- Claim C9 (counterexample): the claim that the stored row's
computation-timestamp column (`updated_at`) receives the prediction's
`computed_at` (its `current_time`, 200000 here) is FALSE: app.py
lines 188 and 204 pass `prediction['last_time']`, so the stored
`updated_at` is the last reading instant 196580, not 200000. -/
theorem updated_at_is_last_time_refuted :
    upsertForecast [ForecastRow.mk "A" 0 0 0 0 0 0] "A"
        (Prediction.mk "A" 19 2 20 17 (17/20) 203060 196580 200000) =
      [ForecastRow.mk "A" 203060 20 2 17 (17/20) 196580] ∧
      (ForecastRow.mk "A" 203060 20 2 17 (17/20) 196580).updated_at ≠
        (Prediction.mk "A" 19 2 20 17 (17/20) 203060 196580
          200000).current_time := by
  constructor
  · simp [upsertForecast, countGalon, rowFromPrediction]
  · norm_num

/-- Claim C9 (amended): for an existing container the upsert updates all
computed fields in place (no row added or removed), and the `updated_at`
column is set to the prediction's `last_time` — the last recent reading's
timestamp — not to its computation time. -/
theorem update_in_place_fields (store : List ForecastRow) (g : String)
    (p : Prediction) (h : 0 < countGalon store g) :
    (upsertForecast store g p).length = store.length ∧
      ∀ row ∈ upsertForecast store g p, row.galon = g →
        row.predicted_empty_time = p.predicted_empty_time ∧
        row.consumption_rate = p.consumption_rate_per_hour ∧
        row.cumulative_consumption = p.cumulative_consumption ∧
        row.remaining_volume = p.remaining_volume ∧
        row.hours_to_empty = p.hours_to_empty ∧
        row.updated_at = p.last_time := by
  unfold upsertForecast
  rw [if_pos h]
  refine ⟨List.length_map _ _, ?_⟩
  intro row hrow hg
  obtain ⟨r, hr, hrow2⟩ := List.mem_map.mp hrow
  subst hrow2
  by_cases hrg : r.galon = g
  · rw [if_pos hrg]
    exact ⟨rfl, rfl, rfl, rfl, rfl, rfl⟩
  · rw [if_neg hrg] at hg
    exact absurd hg hrg

/-- Witness for the amended C9 at a one-row store. -/
theorem update_in_place_fields_witness :
    (upsertForecast [ForecastRow.mk "A" 0 0 0 0 0 0] "A"
        (Prediction.mk "A" 19 2 20 17 (17/20) 203060 196580 200000)).length =
      ([ForecastRow.mk "A" 0 0 0 0 0 0] : List ForecastRow).length ∧
      ∀ row ∈ upsertForecast [ForecastRow.mk "A" 0 0 0 0 0 0] "A"
          (Prediction.mk "A" 19 2 20 17 (17/20) 203060 196580 200000),
        row.galon = "A" →
          row.predicted_empty_time = (Prediction.mk "A" 19 2 20 17 (17/20)
            203060 196580 200000).predicted_empty_time ∧
          row.consumption_rate = (Prediction.mk "A" 19 2 20 17 (17/20)
            203060 196580 200000).consumption_rate_per_hour ∧
          row.cumulative_consumption = (Prediction.mk "A" 19 2 20 17 (17/20)
            203060 196580 200000).cumulative_consumption ∧
          row.remaining_volume = (Prediction.mk "A" 19 2 20 17 (17/20)
            203060 196580 200000).remaining_volume ∧
          row.hours_to_empty = (Prediction.mk "A" 19 2 20 17 (17/20)
            203060 196580 200000).hours_to_empty ∧
          row.updated_at = (Prediction.mk "A" 19 2 20 17 (17/20)
            203060 196580 200000).last_time :=
  update_in_place_fields [ForecastRow.mk "A" 0 0 0 0 0 0] "A"
    (Prediction.mk "A" 19 2 20 17 (17/20) 203060 196580 200000)
    (by simp [countGalon])

end WaterPrediction
